import Mathlib

/-!
Shallow embedding of the dogstatsd-rs client library
(src/metrics.rs and src/lib.rs) and proofs about its
rendering and dispatch behaviour.

Strings are modelled as Lean strings (Rust String is UTF-8, and
String::len is the UTF-8 byte length, modelled by String.utf8ByteSize).
Rust usize is modelled as Nat, i64/i32 as Int (no claim here exercises
overflow), and Rust integer division (which truncates toward zero) as
Int.tdiv.
-/

namespace Dogstatsd

/-! ### Model of the chrono/time types used by src/metrics.rs

chrono DateTime<UTC> carries nanosecond precision; subtraction of two
DateTime values yields a time::Duration holding the exact difference.
A DateTime is modelled as the count of nanoseconds since the epoch.
-/

/-- Model of chrono DateTime<UTC>: nanoseconds since the Unix epoch. -/
abbrev DateTimeUTC := Int

/-- Model of time::Duration: seconds plus a nanosecond remainder, with
the invariant 0 <= nanos < 10^9 maintained by the constructor below
(the representation used by the time crate that chrono 0.2 re-exports). -/
structure Duration where
  secs : Int
  nanos : Int
deriving DecidableEq, Repr

/-- Subtraction of two DateTime values: the exact difference of d
nanoseconds, normalised into the secs/nanos representation with
0 <= nanos < 10^9 (Euclidean division, as the time crate does). -/
def Duration.fromNanos (d : Int) : Duration :=
  { secs := d / 1000000000, nanos := d % 1000000000 }

/-- Model of time::Duration::num_seconds: whole seconds, toward zero. -/
def Duration.num_seconds (d : Duration) : Int :=
  if d.secs < 0 ∧ 0 < d.nanos then d.secs + 1 else d.secs

/-- Model of the nanosecond part paired with num_seconds (negative when
the duration is negative), as in the time crate. -/
def Duration.nanos_mod_sec (d : Duration) : Int :=
  if d.secs < 0 ∧ 0 < d.nanos then d.nanos - 1000000000 else d.nanos

/-- Model of time::Duration::num_milliseconds: whole milliseconds,
truncated toward zero (Rust integer division is Int.tdiv). -/
def Duration.num_milliseconds (d : Duration) : Int :=
  d.num_seconds * 1000 + Int.tdiv d.nanos_mod_sec 1000000

/-! ### src/metrics.rs

The source uses a trait Metric with per-kind implementing structs
(CountMetric::Incr/Decr, TimeMetric, TimingMetric, GaugeMetric,
HistogramMetric, SetMetric, Event).  Here that closed family is one sum
type, with one render branch per impl, translated clause by clause. -/

/-- The metric kinds of src/metrics.rs as a closed sum:
CountMetric::Incr(String, usize), CountMetric::Decr(String, usize),
TimeMetric \x7bstart_time, end_time, stat\x7d, TimingMetric \x7bms, stat\x7d,
GaugeMetric, HistogramMetric, SetMetric \x7bstat, val\x7d, and
Event \x7btitle, text\x7d. -/
inductive MetricValue where
  | countIncr (stat : String) (count : Nat)
  | countDecr (stat : String) (count : Nat)
  | time (stat : String) (start_time end_time : DateTimeUTC)
  | timing (stat : String) (ms : Int)
  | gauge (stat : String) (val : String)
  | histogram (stat : String) (val : String)
  | setm (stat : String) (val : String)
  | event (title : String) (text : String)
deriving DecidableEq, Repr

/-- Metric::render, one branch per impl in src/metrics.rs.
CountMetric matches Decr(stat, 0) before Decr(stat, count);
TimeMetric renders (end_time - start_time).num_milliseconds();
Event renders the byte lengths of title and text (String::len). -/
def render : MetricValue → String
  | .countIncr stat count => stat ++ ":" ++ toString count ++ "|c"
  | .countDecr stat 0 => stat ++ ":0|c"
  | .countDecr stat count => stat ++ ":-" ++ toString count ++ "|c"
  | .time stat start_time end_time =>
      stat ++ ":" ++
        toString (Duration.fromNanos (end_time - start_time)).num_milliseconds
        ++ "|ms"
  | .timing stat ms => stat ++ ":" ++ toString ms ++ "|ms"
  | .gauge stat val => stat ++ ":" ++ val ++ "|g"
  | .histogram stat val => stat ++ ":" ++ val ++ "|h"
  | .setm stat val => stat ++ ":" ++ val ++ "|s"
  | .event title text =>
      "_e\x7b" ++ toString title.utf8ByteSize ++ "," ++
        toString text.utf8ByteSize ++ "\x7d:" ++ title ++ "|" ++ text

/-- Metric::render_ns.  The trait default prefixes the namespace with a
dot when present; the Event impl overrides it to ignore the namespace. -/
def render_ns (m : MetricValue) (ns : Option String) : String :=
  match m, ns with
  | .event _ _, _ => render m
  | _, some s => s ++ "." ++ render m
  | _, none => render m

/-- Model of Rust slice join: tags.join(sep). -/
def strJoin (sep : String) : List String → String
  | [] => ""
  | [t] => t
  | t :: ts => t ++ sep ++ strJoin sep ts

/-- Metric::render_full: joins the tags with commas and appends
them after a pipe-hash only when the joined string is nonempty
(the source tests joined.is_empty(), not tags.is_empty()). -/
def render_full (m : MetricValue) (ns : Option String) (tags : List String) :
    String :=
  let metric := render_ns m ns
  let joined := strJoin "," tags
  if joined = "" then metric else metric ++ "|#" ++ joined

/-! ### src/lib.rs

Options, Client construction and the metric dispatch methods.
Operating-system effects (UdpSocket::bind, SocketAddr parsing, the mpsc
channel) are parameters of the functions that perform them, so each
construction or send is a pure function of the responses the
environment would give. -/

/-- Options \x7bfrom_addr, to_addr, namespace\x7d of src/lib.rs
(the namespace field is called ns here because namespace is a Lean
keyword). -/
structure Options where
  from_addr : String
  to_addr : String
  ns : Option String
deriving DecidableEq, Repr

/-- Options::default. -/
def Options.mkDefault : Options :=
  { from_addr := "127.0.0.1:8126", to_addr := "127.0.0.1:8125", ns := none }

/-- Options::new: an empty namespace string becomes None, any other
string becomes Some. -/
def Options.new (from_addr to_addr ns : String) : Options :=
  { from_addr := from_addr, to_addr := to_addr,
    ns := if ns ≠ "" then some ns else none }

/-- Model of an io::Error value (carried as its message). -/
abbrev IoError := String

/-- Model of a bound std::net::UdpSocket handle. -/
structure UdpSocket where
  bound_addr : String
deriving DecidableEq, Repr

/-- Model of the io::Result of UdpSocket::bind. -/
inductive BindResult where
  | ok (socket : UdpSocket)
  | err (e : IoError)
deriving DecidableEq, Repr

/-- Model of a parsed std::net::SocketAddr. -/
abbrev SocketAddr := String

/-- The Client of src/lib.rs.  Only the namespace field carries data
relevant to rendering; the channel sender and writer-thread handle are
effect parameters of Client.send below. -/
structure Client where
  ns : Option String
deriving DecidableEq, Repr

/-- Possible outcomes of Client::new as observed by the caller:
an Ok(client), an Err propagated from UdpSocket::bind, or a panic. -/
inductive NewOutcome where
  | ok (c : Client)
  | bindErr (e : IoError)
  | panicked
deriving DecidableEq, Repr

/-- Client::new.  UdpSocket::bind(from_addr) has its io::Result mapped:
a bind error is returned to the caller unchanged; on bind success the
closure runs options.to_addr.parse::<SocketAddr>().unwrap(), so a remote
address that fails to parse panics (unwrap on Err) instead of returning
an error, and a parsed address yields the client.  The bind and parse
effects are passed in as functions from address strings to their
results.  (thread::Builder::spawn is modelled as succeeding; its unwrap
is not exercised by any claim.) -/
def Client.new (options : Options) (bind : String → BindResult)
    (parseSocketAddr : String → Option SocketAddr) : NewOutcome :=
  match bind options.from_addr with
  | .err e => .bindErr e
  | .ok _socket =>
      match parseSocketAddr options.to_addr with
      | none => .panicked
      | some _to_addr => .ok { ns := options.ns }

/-- Model of the Result of mpsc::Sender::send: Err exactly when the
receiving end (the writer thread) is gone. -/
inductive ChannelSendResult where
  | ok
  | err
deriving DecidableEq, Repr

/-- The two log events Client::send can emit. -/
inductive LogEvent where
  | trace (msg : String)
  | warn (msg : String)
deriving DecidableEq, Repr

/-- The byte payload Client::send submits to the channel:
metric.render_full(namespace, tags).into_bytes(), with into_bytes the
UTF-8 encoding of the rendered string. -/
def Client.sendPayload (c : Client) (m : MetricValue) (tags : List String) :
    ByteArray :=
  (render_full m c.ns tags).toUTF8

/-- Client::send: renders the metric with the client namespace and the
tags, submits the bytes to the channel, and matches the Result:
Ok emits the trace log, Err emits the warn log.  Either way the
function returns normally (its Rust return type is unit; the emitted
log event is the one observable). -/
def Client.send (c : Client) (m : MetricValue) (tags : List String)
    (channelSend : ByteArray → ChannelSendResult) : LogEvent :=
  match channelSend (c.sendPayload m tags) with
  | .ok => .trace "queued metric for dogstatsd"
  | .err => .warn "unable to send metric to dogstatsd"

/-- Client::incr_by. -/
def Client.incr_by (c : Client) (stat : String) (amt : Nat)
    (tags : List String) (channelSend : ByteArray → ChannelSendResult) :
    LogEvent :=
  c.send (.countIncr stat amt) tags channelSend

/-- Client::incr: defined as incr_by with amount 1. -/
def Client.incr (c : Client) (stat : String) (tags : List String)
    (channelSend : ByteArray → ChannelSendResult) : LogEvent :=
  c.incr_by stat 1 tags channelSend

/-- Client::decr_by. -/
def Client.decr_by (c : Client) (stat : String) (amt : Nat)
    (tags : List String) (channelSend : ByteArray → ChannelSendResult) :
    LogEvent :=
  c.send (.countDecr stat amt) tags channelSend

/-- Client::decr: defined as decr_by with amount 1. -/
def Client.decr (c : Client) (stat : String) (tags : List String)
    (channelSend : ByteArray → ChannelSendResult) : LogEvent :=
  c.decr_by stat 1 tags channelSend

/-- Discriminator: is the value an Event. -/
def MetricValue.isEvent : MetricValue → Bool
  | .event _ _ => true
  | _ => false

/-! ### Helper lemmas -/

/-- Rust integer division (truncation toward zero) expressed through
Euclidean division of a nonnegative numerator. -/
lemma tdiv_cases (x : Int) :
    Int.tdiv x 1000000 = if 0 ≤ x then x / 1000000 else -(-x / 1000000) := by
  split
  · exact Int.tdiv_eq_ediv (by assumption) (by norm_num)
  · rename_i h
    have hx : 0 ≤ -x := by omega
    have hneg := Int.neg_tdiv (-x) (1000000 : Int)
    rw [neg_neg] at hneg
    rw [hneg, Int.tdiv_eq_ediv hx (by norm_num)]

/-- The secs/nanos implementation of num_milliseconds agrees with
truncating division of the total nanosecond count by one million. -/
lemma num_milliseconds_fromNanos (d : Int) :
    (Duration.fromNanos d).num_milliseconds = Int.tdiv d 1000000 := by
  simp only [Duration.fromNanos, Duration.num_milliseconds,
    Duration.num_seconds, Duration.nanos_mod_sec, tdiv_cases]
  split_ifs <;> omega

/-- A string with a comma spliced into the middle is never empty. -/
lemma append_comma_ne_empty (a b : String) : a ++ "," ++ b ≠ "" := by
  intro h
  have hlen := congrArg String.length h
  rw [String.length_append, String.length_append] at hlen
  have h1 : ("," : String).length = 1 := rfl
  have h0 : ("" : String).length = 0 := rfl
  omega

/-- The comma-join of a tag list is empty exactly when the list is
empty or is the single empty tag. -/
lemma strJoin_comma_eq_empty_iff (tags : List String) :
    strJoin "," tags = "" ↔ tags = [] ∨ tags = [""] := by
  match tags with
  | [] => simp [strJoin]
  | [t] => simp [strJoin]
  | t :: u :: rest =>
      have hj : strJoin "," (t :: u :: rest) =
          t ++ "," ++ strJoin "," (u :: rest) := rfl
      rw [hj]
      constructor
      · intro h
        exact absurd h (append_comma_ne_empty t (strJoin "," (u :: rest)))
      · intro h
        rcases h with h | h <;> simp_all

/-! ### Claim theorems -/

/-- C4: for every stat and every non-negative amount n, a Count
increment renders as stat:n|c; a Count decrement with amount 0 renders
as stat:0|c with no leading sign; a Count decrement with amount n > 0
renders as stat:-n|c. -/
theorem count_render_spec (stat : String) (n : Nat) :
    render (.countIncr stat n) = stat ++ ":" ++ toString n ++ "|c" ∧
    render (.countDecr stat 0) = stat ++ ":0|c" ∧
    (0 < n → render (.countDecr stat n) = stat ++ ":-" ++ toString n ++ "|c") := by
  refine ⟨rfl, rfl, fun h => ?_⟩
  cases n with
  | zero => exact absurd h (lt_irrefl 0)
  | succ k => rfl

/-- Witness for C4 at stat "decr" and amount 3. -/
theorem count_render_spec_witness :
    render (.countDecr "decr" 3) = "decr:-3|c" :=
  ((count_render_spec "decr" 3).2.2 (by decide)).trans rfl

/-- C5: render_ns with an absent namespace is render; with a present
namespace and a non-Event value it is the namespace, a dot, and
render; for an Event value the namespace is ignored whether present or
absent. -/
theorem render_ns_spec (m : MetricValue) (s : String) :
    render_ns m none = render m ∧
    (m.isEvent = false → render_ns m (some s) = s ++ "." ++ render m) ∧
    (m.isEvent = true → ∀ ns : Option String, render_ns m ns = render m) := by
  refine ⟨?_, fun h => ?_, fun h ns => ?_⟩
  · cases m <;> rfl
  · cases m <;> simp_all [MetricValue.isEvent, render_ns]
  · cases m <;> simp_all [MetricValue.isEvent]
    cases ns <;> rfl

/-- Witness for C5: a gauge takes the dot-joined prefix, an event
ignores a present namespace. -/
theorem render_ns_spec_witness :
    render_ns (.gauge "gauge" "12345") (some "foo") = "foo.gauge:12345|g" ∧
    render_ns (.event "T" "B") (some "foo") = render (.event "T" "B") :=
  ⟨((render_ns_spec (.gauge "gauge" "12345") "foo").2.1 rfl).trans rfl,
   (render_ns_spec (.event "T" "B") "foo").2.2 rfl (some "foo")⟩

/-- C6: an Event with title of byte length L1 and text of byte length
L2 renders exactly as the underscore-e header carrying L1 and L2
followed by the raw title and text; the lengths are byte lengths, as
the included non-ASCII instance shows (title of one character but two
bytes). -/
theorem event_render_spec (title text : String) :
    render (.event title text) =
      "_e\x7b" ++ toString title.utf8ByteSize ++ "," ++
        toString text.utf8ByteSize ++ "\x7d:" ++ title ++ "|" ++ text ∧
    render (.event "é" "ß") = "_e\x7b2,2\x7d:é|ß" ∧
    "é".utf8ByteSize = 2 ∧ "é".length = 1 :=
  ⟨rfl, by decide, by decide, by decide⟩

/-- C7: gauges, histograms and sets render as stat:value with the g, h
and s type suffixes respectively, for every stat and value string;
rendering is a total function of the input. -/
theorem gauge_histogram_set_render_spec (stat val : String) :
    render (.gauge stat val) = stat ++ ":" ++ val ++ "|g" ∧
    render (.histogram stat val) = stat ++ ":" ++ val ++ "|h" ∧
    render (.setm stat val) = stat ++ ":" ++ val ++ "|s" :=
  ⟨rfl, rfl, rfl⟩

/-- C2 counterexample: the tag list holding one empty string is
non-empty, yet render_full returns render_ns unchanged instead of
appending the pipe-hash separator and the joined tags, because the
source tests emptiness of the joined string, not of the list. -/
theorem render_full_tags_counterexample :
    ([""] : List String) ≠ [] ∧
    render_full (.gauge "g" "1") none [""] = "g:1|g" ∧
    render_ns (.gauge "g" "1") none ++ "|#" ++ strJoin "," [""] = "g:1|g|#" ∧
    render_full (.gauge "g" "1") none [""] ≠
      render_ns (.gauge "g" "1") none ++ "|#" ++ strJoin "," [""] :=
  ⟨by decide, rfl, rfl, by decide⟩

/-- C2 (amended): render_full returns render_ns unchanged when the
comma-join of the tags is empty, which happens exactly when the tag
list is empty or is the single empty tag; when the join is non-empty
it returns render_ns followed by the pipe-hash separator and the tags
joined by commas in caller-supplied order, duplicates kept and no
escaping applied. -/
theorem render_full_spec (m : MetricValue) (ns : Option String)
    (tags : List String) :
    (strJoin "," tags = "" ↔ tags = [] ∨ tags = [""]) ∧
    (strJoin "," tags = "" → render_full m ns tags = render_ns m ns) ∧
    (strJoin "," tags ≠ "" →
      render_full m ns tags = render_ns m ns ++ "|#" ++ strJoin "," tags) := by
  refine ⟨strJoin_comma_eq_empty_iff tags, fun h => ?_, fun h => ?_⟩
  · simp [render_full, h]
  · simp [render_full, h]

/-- Witness for C2 (amended): an empty tag list leaves the rendered
metric unchanged, and a duplicated tag is kept twice in order. -/
theorem render_full_spec_witness :
    render_full (.gauge "g" "1") none [] = "g:1|g" ∧
    render_full (.gauge "g" "1") none ["a", "a"] = "g:1|g|#a,a" :=
  ⟨((render_full_spec (.gauge "g" "1") none []).2.1 rfl).trans rfl,
   ((render_full_spec (.gauge "g" "1") none ["a", "a"]).2.2 (by decide)).trans rfl⟩

/-- C3 counterexample: for start 500000 ns and end 0 ns the difference
is minus one half millisecond; the code truncates toward zero and
renders s:0|ms, while the floor of the difference in milliseconds is
-1, and the rendered value is not negative even though end < start. -/
theorem time_render_counterexample :
    render (.time "s" 500000 0) = "s:0|ms" ∧
    Int.fdiv (0 - 500000) 1000000 = -1 ∧
    render (.time "s" 500000 0) ≠ "s:-1|ms" :=
  ⟨rfl, by decide, by decide⟩

/-- C3 (amended): an ElapsedTime metric renders as stat:ms|ms where ms
is the difference end minus start in nanoseconds divided by one
million truncating toward zero; equal timestamps render stat:0|ms;
end before start yields a non-positive ms rendered as-is rather than
an error, strictly negative once start exceeds end by at least one
millisecond. -/
theorem time_render_spec (stat : String) (s e : Int) :
    render (.time stat s e) =
      stat ++ ":" ++ toString (Int.tdiv (e - s) 1000000) ++ "|ms" ∧
    (e = s → render (.time stat s e) = stat ++ ":0|ms") ∧
    (e < s → Int.tdiv (e - s) 1000000 ≤ 0) ∧
    (e + 1000000 ≤ s → Int.tdiv (e - s) 1000000 < 0) := by
  have hr : render (.time stat s e) =
      stat ++ ":" ++
        toString ((Duration.fromNanos (e - s)).num_milliseconds) ++ "|ms" := rfl
  refine ⟨?_, fun he => ?_, fun hlt => ?_, fun hle => ?_⟩
  · rw [hr, num_milliseconds_fromNanos]
  · have h0 : (Duration.fromNanos (e - s)).num_milliseconds = 0 := by
      rw [he, sub_self]
      decide
    rw [hr, h0]
    simp only [String.append_assoc]
    rfl
  · rw [tdiv_cases]
    split_ifs <;> omega
  · rw [tdiv_cases]
    split_ifs <;> omega

/-- Witness for C3 (amended) at concrete timestamps: equal timestamps
give the zero rendering, a half-millisecond deficit gives a
non-positive count, a full-millisecond deficit a negative one. -/
theorem time_render_spec_witness :
    render (.time "z" 5 5) = "z:0|ms" ∧
    Int.tdiv (0 - 500000) 1000000 ≤ 0 ∧
    Int.tdiv (0 - 1000000) 1000000 < 0 :=
  ⟨(time_render_spec "z" 5 5).2.1 rfl,
   (time_render_spec "z" 500000 0).2.2.1 (by decide),
   (time_render_spec "z" 1000000 0).2.2.2 (by decide)⟩

/-- C1 counterexample: with a local bind that succeeds and a remote
address that does not parse, Client.new ends in a panic (the parse
result is unwrapped) instead of returning a resolution-style error
value, so construction does abort by a mechanism other than returning
an error. -/
theorem client_new_counterexample :
    Client.new (Options.new "127.0.0.1:9000" "not-an-address" "")
      (fun a => .ok ⟨a⟩) (fun _ => none) = .panicked :=
  rfl

/-- C1 (amended): Client construction returns the bind error
synchronously when the local address cannot be bound; when bind
succeeds but the remote address cannot be parsed it panics rather than
returning an error value; when bind and parse both succeed it returns
a client handle carrying the options namespace. -/
theorem client_new_spec (options : Options) (bind : String → BindResult)
    (parseSocketAddr : String → Option SocketAddr) :
    (∀ e, bind options.from_addr = .err e →
      Client.new options bind parseSocketAddr = .bindErr e) ∧
    (∀ s, bind options.from_addr = .ok s →
      parseSocketAddr options.to_addr = none →
      Client.new options bind parseSocketAddr = .panicked) ∧
    (∀ s a, bind options.from_addr = .ok s →
      parseSocketAddr options.to_addr = some a →
      Client.new options bind parseSocketAddr = .ok { ns := options.ns }) := by
  refine ⟨fun e he => ?_, fun s hs hp => ?_, fun s a hs hp => ?_⟩
  · simp [Client.new, he]
  · simp [Client.new, hs, hp]
  · simp [Client.new, hs, hp]

/-- Witness for C1 (amended): a failing bind surfaces its error, and a
successful bind with a parsed remote address yields the client with
the requested namespace. -/
theorem client_new_spec_witness :
    Client.new Options.mkDefault (fun _ => .err "address in use")
      (fun a => some a) = .bindErr "address in use" ∧
    Client.new (Options.new "127.0.0.1:9000" "10.1.2.3:8125" "analytics")
      (fun a => .ok ⟨a⟩) (fun a => some a) = .ok { ns := some "analytics" } :=
  ⟨(client_new_spec Options.mkDefault (fun _ => .err "address in use")
      (fun a => some a)).1 "address in use" rfl,
   (client_new_spec (Options.new "127.0.0.1:9000" "10.1.2.3:8125" "analytics")
      (fun a => .ok ⟨a⟩) (fun a => some a)).2.2
      ⟨"127.0.0.1:9000"⟩ "10.1.2.3:8125" rfl rfl⟩

/-- C8: Client.send always returns normally with one of two log
events and nothing else: when the channel rejects the payload (the
receiving end is gone) it emits the warning and the metric is dropped,
and when the channel accepts it emits the queued trace; no error is
ever surfaced to the caller. -/
theorem client_send_spec (c : Client) (m : MetricValue) (tags : List String)
    (channelSend : ByteArray → ChannelSendResult) :
    (channelSend (c.sendPayload m tags) = .err →
      c.send m tags channelSend = .warn "unable to send metric to dogstatsd") ∧
    (channelSend (c.sendPayload m tags) = .ok →
      c.send m tags channelSend = .trace "queued metric for dogstatsd") ∧
    (c.send m tags channelSend = .trace "queued metric for dogstatsd" ∨
      c.send m tags channelSend = .warn "unable to send metric to dogstatsd") := by
  refine ⟨fun he => ?_, fun ho => ?_, ?_⟩
  · simp [Client.send, he]
  · simp [Client.send, ho]
  · cases h : channelSend (c.sendPayload m tags)
    · exact .inl (by simp [Client.send, h])
    · exact .inr (by simp [Client.send, h])

/-- Witness for C8: a dead channel produces the warning, a live one
the trace, at a concrete client, metric and tag list. -/
theorem client_send_spec_witness :
    Client.send ⟨none⟩ (.gauge "g" "1") [] (fun _ => .err) =
      .warn "unable to send metric to dogstatsd" ∧
    Client.send ⟨none⟩ (.gauge "g" "1") [] (fun _ => .ok) =
      .trace "queued metric for dogstatsd" :=
  ⟨(client_send_spec ⟨none⟩ (.gauge "g" "1") [] (fun _ => .err)).1 rfl,
   (client_send_spec ⟨none⟩ (.gauge "g" "1") [] (fun _ => .ok)).2.1 rfl⟩

/-- C9: Options.new with an empty namespace string yields an absent
namespace, equal to the default options namespace; every metric
rendered with that namespace is rendered exactly as with the default
options, and carries no prefix and no leading dot (render_ns is plain
render); a successfully constructed client from such options carries
the absent namespace. -/
theorem options_empty_ns_spec (f t : String) :
    Options.new f t "" = { from_addr := f, to_addr := t, ns := none } ∧
    (Options.new f t "").ns = Options.mkDefault.ns ∧
    (∀ (m : MetricValue) (tags : List String),
      render_full m (Options.new f t "").ns tags =
        render_full m Options.mkDefault.ns tags) ∧
    (∀ m : MetricValue, render_ns m (Options.new f t "").ns = render m) ∧
    (∀ (bind : String → BindResult) (parseSocketAddr : String → Option SocketAddr)
      (s : UdpSocket) (a : SocketAddr), bind f = .ok s → parseSocketAddr t = some a →
      Client.new (Options.new f t "") bind parseSocketAddr = .ok { ns := none }) := by
  refine ⟨rfl, rfl, fun m tags => rfl, fun m => ?_, fun bind p s a hs hp => ?_⟩
  · cases m <;> rfl
  · simp [Client.new, Options.new, hs, hp]

/-- Witness for C9: the worked example from the repository
documentation, namespace-free. -/
theorem options_empty_ns_spec_witness :
    render_full (.gauge "my_gauge" "12345") (Options.new "127.0.0.1:9001" "127.0.0.1:9002" "").ns [] = "my_gauge:12345|g" ∧
    Client.new (Options.new "127.0.0.1:9001" "127.0.0.1:9002" "")
      (fun a => .ok ⟨a⟩) (fun a => some a) = .ok { ns := none } :=
  ⟨((options_empty_ns_spec "127.0.0.1:9001" "127.0.0.1:9002").2.2.2.1
      (.gauge "my_gauge" "12345")).trans rfl,
   (options_empty_ns_spec "127.0.0.1:9001" "127.0.0.1:9002").2.2.2.2
      (fun a => .ok ⟨a⟩) (fun a => some a) ⟨"127.0.0.1:9001"⟩ "127.0.0.1:9002" rfl rfl⟩

/-- C10: incr is definitionally incr_by with amount 1 and decr is
definitionally decr_by with amount 1: for every client, stat, tag list
and channel they take the identical action, hence submit the identical
rendered payload (both pairs dispatch through Client.send on the same
metric value). -/
theorem incr_decr_unit_spec (c : Client) (stat : String) (tags : List String)
    (channelSend : ByteArray → ChannelSendResult) :
    c.incr stat tags channelSend = c.incr_by stat 1 tags channelSend ∧
    c.decr stat tags channelSend = c.decr_by stat 1 tags channelSend ∧
    c.incr_by stat 1 tags channelSend =
      c.send (.countIncr stat 1) tags channelSend ∧
    c.decr_by stat 1 tags channelSend =
      c.send (.countDecr stat 1) tags channelSend :=
  ⟨rfl, rfl, rfl, rfl⟩

end Dogstatsd
